import Mathlib

/-! # headless-print: tab pool and PDF render pipeline

A shallow embedding of `src/main.go`.  Goroutines become interleavings of
atomic channel operations, a call that can block forever or panic returns an
`Outcome`, and the external collaborators (the chromedp driver, `os.ReadFile`,
`runtime.NumCPU`, the `flag` package, `net/http`) are explicit inputs.
-/

namespace HeadlessPrint

/-! ## Basic data -/

/-- Raw bytes (`[]byte`). -/
abbrev Bytes := List UInt8

/-- A tab context handle (`context.Context` derived from the browser context),
identified by the order in which `chromedp.NewContext` created it. -/
abbrev Context := Nat

/-- Identifier of a frame (`cdp.FrameID`). -/
abbrev FrameID := String

/-- Errors returned by the collaborators (values of Go's `error`). -/
inductive Err where
  | canceled
  | deadlineExceeded
  | other (msg : String)
  deriving DecidableEq, Repr

/-- The text of an error (`err.Error()`, what `%v` prints). -/
def Err.text : Err → String
  | .canceled => "context canceled"
  | .deadlineExceeded => "context deadline exceeded"
  | .other msg => msg

/-- What a call does: it returns, it blocks forever, or it panics. -/
inductive Outcome (α : Type) where
  | ret (a : α)
  | blocked
  | panicked
  deriving DecidableEq, Repr

/-- The allocator behind the browser context: a locally launched browser
(`chromedp.NewExecAllocator`, with the extra flags given to it) or a remote
debugging endpoint (`chromedp.NewRemoteAllocator`). -/
inductive Allocator where
  | exec (flags : List (String × Bool))
  | remote (url : String)
  deriving DecidableEq, Repr

/-- The browser context: the allocator it was derived from and whether its
cancel function has run. -/
structure BrowserCtx where
  alloc : Allocator
  cancelled : Bool
  deriving DecidableEq, Repr

/-- The struct `TabPool`.  `pool` is the content of the buffered channel (the
head is received next), `cap` its capacity; `browserCancel` is the operation
that sets `browserCtx.cancelled`; `mutexLocked` is the state of `mutex`. -/
structure TabPool where
  browserCtx : BrowserCtx
  pool : List Context
  cap : Nat
  mutexLocked : Bool
  deriving DecidableEq, Repr

/-- The package-level variables `isUseCDPServer` and `cdpServerURL`. -/
structure Config where
  isUseCDPServer : Bool
  cdpServerURL : String
  deriving DecidableEq, Repr

/-- The values the package-level variables are initialised with. -/
def initialConfig : Config :=
  { isUseCDPServer := true, cdpServerURL := "ws://127.0.0.1:9222" }

/-- Outcomes of the driver calls made while the pool is built: the first
`chromedp.Run(ctx)` on the browser context, and the `about:blank` navigation
of the tab with index `i`. -/
structure StartEnv where
  startBrowser : Option Err
  initTab : Nat → Option Err

/-! ## Channel operations -/

/-- Receive from the channel (`<-p.pool`): blocks while it is empty. -/
def recv (p : TabPool) : Outcome (Context × TabPool) :=
  match p.pool with
  | [] => .blocked
  | c :: rest => .ret (c, { p with pool := rest })

/-- Send on the channel (`p.pool <- ctx`): blocks while it is full. -/
def send (p : TabPool) (ctx : Context) : Outcome TabPool :=
  if p.pool.length < p.cap then .ret { p with pool := p.pool ++ [ctx] }
  else .blocked

/-! ## Tab pool -/

/-- The flags `NewTabPool` appends to the default exec-allocator options. -/
def execFlags : List (String × Bool) :=
  [("no-sandbox", true), ("disable-setuid-sandbox", true), ("no-zygote", true),
   ("disable-dev-shm-usage", true), ("disable-gpu", true),
   ("disable-extensions", true), ("disable-plugins", true),
   ("disable-background-timer-throttling", true),
   ("disable-backgrounding-occluded-windows", true),
   ("disable-renderer-backgrounding", true), ("disable-web-security", true),
   ("disable-software-rasterizer", true), ("disable-default-apps", true),
   ("disable-component-extensions-with-background-pages", true),
   ("disable-sync", true), ("headless", true)]

/-- The allocator `NewTabPool` ends up with: the exec allocator, replaced by
the remote one when `isUseCDPServer` is set. -/
def chooseAllocator (cfg : Config) : Allocator :=
  if cfg.isUseCDPServer then .remote cfg.cdpServerURL else .exec execFlags

/-- The loop `for i := 0; i < size; i++` of `NewTabPool`, with `remaining`
iterations left: create tab `i`, navigate it to `about:blank`, log a warning
when that fails, and enqueue the tab either way. -/
def initTabs (env : StartEnv) : (remaining : Nat) → (i : Nat) → TabPool → List String →
    Outcome (TabPool × List String)
  | 0, _, p, log => .ret (p, log)
  | remaining + 1, i, p, log =>
    let tabCtx : Context := i
    let log1 :=
      match env.initTab i with
      | some err =>
        log ++ ["Warning: Failed to initialize tab " ++ toString i ++ ": " ++ err.text]
      | none => log
    match send p tabCtx with
    | .ret p1 => initTabs env remaining (i + 1) p1 log1
    | .blocked => .blocked
    | .panicked => .panicked

/-- The function `NewTabPool`.  The result is the pair `(*TabPool, error)`
as an `Except`, together with the lines logged. -/
def NewTabPool (cfg : Config) (env : StartEnv) (size : Int) :
    Outcome (Except String TabPool × List String) :=
  let log0 := if cfg.isUseCDPServer then ["Using CDPServer: " ++ cfg.cdpServerURL] else []
  let ctx : BrowserCtx := { alloc := chooseAllocator cfg, cancelled := false }
  match env.startBrowser with
  | some err => .ret (.error ("failed to start browser: " ++ err.text), log0)
  | none =>
    if size < 0 then .panicked
    else
      let pool : TabPool :=
        { browserCtx := ctx, pool := [], cap := size.toNat, mutexLocked := false }
      match initTabs env size.toNat 0 pool log0 with
      | .ret (p, log) => .ret (.ok p, log)
      | .blocked => .blocked
      | .panicked => .panicked

/-- The method `GetTab`. -/
def GetTab (p : TabPool) : Outcome (Context × TabPool) := recv p

/-- The method `ReleaseTab`. -/
def ReleaseTab (p : TabPool) (ctx : Context) : Outcome TabPool := send p ctx

/-- The method `Close`: lock the mutex, call `browserCancel`, and unlock on
the way out.  A cancel function does nothing after its first call. -/
def Close (p : TabPool) : Outcome TabPool :=
  if p.mutexLocked then .blocked
  else
    let p1 := { p with mutexLocked := true }
    let p2 := { p1 with browserCtx := { p1.browserCtx with cancelled := true } }
    .ret { p2 with mutexLocked := false }

/-- Wrap an integer to the range of Go's 64-bit `int`. -/
def wrapInt (x : Int) : Int := (x + 2 ^ 63) % 2 ^ 64 - 2 ^ 63

/-- The function `calculateOptimalPoolSize`, on the value `runtime.NumCPU()`
returned. -/
def calculateOptimalPoolSize (numCPU : Int) : Int :=
  let optimalSize := wrapInt (numCPU * 4)
  if optimalSize < 4 then 4
  else if optimalSize > 32 then 32
  else optimalSize

/-- The value `clamp(x, lo, hi)` of the sizing policy. -/
def clamp (x lo hi : Int) : Int := if x < lo then lo else if x > hi then hi else x

/-! ## Interleavings of pool operations -/

/-- A pool together with the contexts currently checked out of it. -/
structure PoolState where
  p : TabPool
  out : List Context
  deriving DecidableEq, Repr

/-- One atomic step of some goroutine on the pool. -/
inductive Op where
  | getTab
  | releaseTab (ctx : Context)
  deriving DecidableEq, Repr

/-- Perform one step.  `none` when the step cannot be taken: the operation
would block, or the release is not of a context that is checked out. -/
def stepOp (s : PoolState) : Op → Option PoolState
  | .getTab =>
    match GetTab s.p with
    | .ret (c, p1) => some { p := p1, out := c :: s.out }
    | _ => none
  | .releaseTab ctx =>
    if ctx ∈ s.out then
      match ReleaseTab s.p ctx with
      | .ret p1 => some { p := p1, out := s.out.erase ctx }
      | _ => none
    else none

/-- Perform the steps of an interleaving in order. -/
def runOps : PoolState → List Op → Option PoolState
  | s, [] => some s
  | s, op :: ops =>
    match stepOp s op with
    | some s1 => runOps s1 ops
    | none => none

/-! ## Render pipeline -/

/-- Outcomes of the calls `createPDF` makes on its collaborators while the
browser context is live: `os.ReadFile("index.html")` and the four protocol
commands.  An expired 10 s deadline shows as `Err.deadlineExceeded`. -/
structure RenderEnv where
  readFile : Except Err Bytes
  navigate : Option Err
  getFrameTree : Except Err FrameID
  setDocumentContent : FrameID → Bytes → Option Err
  printToPDF : Except Err Bytes

/-- A call made by `createPDF` on the pool, the file system or the driver. -/
inductive Event where
  | getTab (ctx : Context)
  | releaseTab (ctx : Context)
  | readFile
  | navigate (ctx : Context)
  | getFrameTree (ctx : Context)
  | setDocumentContent (ctx : Context) (frame : FrameID) (html : Bytes)
  | sleep
  | printToPDF (ctx : Context)
  deriving DecidableEq, Repr

/-- What `createPDF` hands back: the pair `([]byte, error)` (with `none` for
`nil`), the calls it made, in order, and the lines it logged. -/
structure RenderResult where
  buf : Option Bytes
  err : Option Err
  trace : List Event
  log : List String
  deriving DecidableEq, Repr

/-- A command run on a context derived from the browser context: once the
browser context is cancelled it fails with `context.Canceled`. -/
def onCtx {α : Type} (b : BrowserCtx) (r : Except Err α) : Except Err α :=
  if b.cancelled then .error .canceled else r

/-- The action `chromedp.Navigate("about:blank")`. -/
def doNavigate (env : RenderEnv) (b : BrowserCtx) : Option Err :=
  if b.cancelled then some .canceled else env.navigate

/-- The command `page.GetFrameTree().Do(ctx)`. -/
def doGetFrameTree (env : RenderEnv) (b : BrowserCtx) : Except Err FrameID :=
  onCtx b env.getFrameTree

/-- The command `page.SetDocumentContent(frameID, html).Do(ctx)`. -/
def doSetDocumentContent (env : RenderEnv) (b : BrowserCtx) (frame : FrameID)
    (html : Bytes) : Option Err :=
  if b.cancelled then some .canceled else env.setDocumentContent frame html

/-- The command `page.PrintToPDF().WithPrintBackground(false).Do(ctx)`. -/
def doPrintToPDF (env : RenderEnv) (b : BrowserCtx) : Except Err Bytes :=
  onCtx b env.printToPDF

/-- The exit of `createPDF` through `return nil, err` after `chromedp.Run`
failed. -/
def runFailed (err : Err) (trace : List Event) (log : List String) : RenderResult :=
  { buf := none, err := some err, trace := trace,
    log := log ++ ["Error running chromedp: " ++ err.text] }

/-- The body of `createPDF` between `GetTab` and the deferred `ReleaseTab`:
read the file, then run the three actions in order under the timeout context,
stopping at the first error. -/
def createPDFBody (env : RenderEnv) (b : BrowserCtx) (tabCtx : Context) : RenderResult :=
  let log1 := ["Getting tab from pool", "Read HTML file"]
  let tr1 := [Event.getTab tabCtx, Event.readFile]
  match env.readFile with
  | .error err => { buf := none, err := some err, trace := tr1, log := log1 }
  | .ok html =>
    let log2 := log1 ++ ["Using tab from pool"]
    let tr2 := tr1 ++ [Event.navigate tabCtx]
    match doNavigate env b with
    | some err => runFailed err tr2 log2
    | none =>
      let log3 := log2 ++ ["Set page content"]
      let tr3 := tr2 ++ [Event.getFrameTree tabCtx]
      match doGetFrameTree env b with
      | .error err =>
        runFailed err tr3 (log3 ++ ["Error getting frame tree: " ++ err.text])
      | .ok frame =>
        let tr4 := tr3 ++ [Event.setDocumentContent tabCtx frame html]
        match doSetDocumentContent env b frame html with
        | some err =>
          runFailed err tr4 (log3 ++ ["Error setting document content: " ++ err.text])
        | none =>
          let log5 := log3 ++ ["Waiting for content to load...", "Print to PDF"]
          let tr5 := tr4 ++ [Event.sleep, Event.printToPDF tabCtx]
          match doPrintToPDF env b with
          | .error err =>
            runFailed err tr5 (log5 ++ ["Error printing to PDF: " ++ err.text])
          | .ok buf =>
            { buf := some buf, err := none, trace := tr5,
              log := log5 ++ ["PDF generated successfully", "Return buffer"] }

/-- The function `createPDF`, on the pool the global `tabPool` points to.
The deferred `ReleaseTab(tabCtx)` runs on every way out of the body. -/
def createPDF (env : RenderEnv) (p : TabPool) : Outcome (RenderResult × TabPool) :=
  match GetTab p with
  | .blocked => .blocked
  | .panicked => .panicked
  | .ret (tabCtx, p1) =>
    let r := createPDFBody env p1.browserCtx tabCtx
    match ReleaseTab p1 tabCtx with
    | .ret p2 => .ret ({ r with trace := r.trace ++ [Event.releaseTab tabCtx] }, p2)
    | .blocked => .blocked
    | .panicked => .panicked

/-! ## HTTP handler -/

/-- An `http.ResponseWriter`: the header map, the status line once written,
and the body written so far. -/
structure ResponseWriter where
  header : List (String × String)
  status : Option Nat
  body : Bytes
  deriving DecidableEq, Repr

/-- The writer the server hands to a handler. -/
def ResponseWriter.fresh : ResponseWriter := { header := [], status := none, body := [] }

/-- Look a header up (`Header.Get`). -/
def headerGet (h : List (String × String)) (key : String) : Option String :=
  (h.find? (fun kv => kv.1 == key)).map (fun kv => kv.2)

/-- Remove a header (`Header.Del`). -/
def headerDel (h : List (String × String)) (key : String) : List (String × String) :=
  h.filter (fun kv => !(kv.1 == key))

/-- Set a header, replacing any value it had (`Header.Set`). -/
def headerSet (h : List (String × String)) (key value : String) : List (String × String) :=
  headerDel h key ++ [(key, value)]

/-- The call `w.WriteHeader(code)`: only the first status counts. -/
def WriteHeader (w : ResponseWriter) (code : Nat) : ResponseWriter :=
  match w.status with
  | some _ => w
  | none => { w with status := some code }

/-- The call `w.Write(b)`: writes status 200 first when none was written. -/
def Write (w : ResponseWriter) (b : Bytes) : ResponseWriter :=
  let w1 := WriteHeader w 200
  { w1 with body := w1.body ++ b }

/-- The bytes of a string. -/
def bytesOf (s : String) : Bytes := s.toUTF8.data.toList

/-- The library function `http.Error`: plain-text headers, the status, and
the message followed by a newline. -/
def httpError (w : ResponseWriter) (msg : String) (code : Nat) : ResponseWriter :=
  let h1 := headerDel w.header "Content-Length"
  let h2 := headerSet h1 "Content-Type" "text/plain; charset=utf-8"
  let h3 := headerSet h2 "X-Content-Type-Options" "nosniff"
  Write (WriteHeader { w with header := h3 } code) (bytesOf (msg ++ "\n"))

/-- The part of `generatePDFHandler` after `createPDF` returned `(buf, err)`:
the response written and the lines logged. -/
def respond (w : ResponseWriter) (buf : Option Bytes) (err : Option Err) :
    ResponseWriter × List String :=
  match err with
  | some e =>
    (httpError w "Failed to generate PDF" 500, ["Error generating PDF: " ++ e.text])
  | none =>
    let b := buf.getD []
    let h1 := headerSet w.header "Content-Type" "application/pdf"
    let h2 := headerSet h1 "Content-Disposition" "attachment; filename=generated.pdf"
    let h3 := headerSet h2 "Content-Length" (toString b.length)
    (Write { w with header := h3 } b, ["PDF generated and sent to client"])

/-- The function `generatePDFHandler`. -/
def generatePDFHandler (env : RenderEnv) (p : TabPool) (w : ResponseWriter) :
    Outcome (ResponseWriter × TabPool × List String) :=
  match createPDF env p with
  | .blocked => .blocked
  | .panicked => .panicked
  | .ret (r, p1) =>
    let (w1, log) := respond w r.buf r.err
    .ret (w1, p1, r.log ++ log)

/-! ## Start-up -/

/-- The values of the two flags `main` declares. -/
structure Flags where
  useCDPServer : Bool
  url : String
  deriving DecidableEq, Repr

/-- The defaults `main` gives to `flag.Bool("use-cdp-server", ...)` and
`flag.String("url", ...)`. -/
def flagDefaults : Flags := { useCDPServer := false, url := "ws://127.0.0.1:9222" }

/-- The library function `strconv.ParseBool`. -/
def parseBool (s : String) : Option Bool :=
  if s ∈ ["1", "t", "T", "TRUE", "true", "True"] then some true
  else if s ∈ ["0", "f", "F", "FALSE", "false", "False"] then some false
  else none

/-- Split a flag name at the first `=` that is not its first character. -/
def splitValue (name : List Char) : List Char × Option (List Char) :=
  match name with
  | [] => ([], none)
  | c :: rest =>
    match rest.span (fun ch => !(ch == '=')) with
    | (pre, []) => (c :: pre, none)
    | (pre, _ :: value) => (c :: pre, some value)

/-- The library function `flag.Parse` for the two flags of `main`, on
`os.Args[1:]`: the flag values, or the exit status when parsing fails. -/
def flagParse : List String → Flags → Except Nat Flags
  | [], f => .ok f
  | s :: rest, f =>
    let cs := s.toList
    match cs with
    | '-' :: c1 :: more =>
      if c1 == '-' ∧ more = [] then .ok f
      else
        let name := if c1 == '-' then more else c1 :: more
        match name with
        | [] => .error 2
        | '-' :: _ => .error 2
        | '=' :: _ => .error 2
        | _ =>
          let (nm, value) := splitValue name
          if String.mk nm = "use-cdp-server" then
            match value with
            | some v =>
              match parseBool (String.mk v) with
              | some b => flagParse rest { f with useCDPServer := b }
              | none => .error 2
            | none => flagParse rest { f with useCDPServer := true }
          else if String.mk nm = "url" then
            match value with
            | some v => flagParse rest { f with url := String.mk v }
            | none =>
              match rest with
              | [] => .error 2
              | v :: rest2 => flagParse rest2 { f with url := v }
          else if String.mk nm = "help" ∨ String.mk nm = "h" then .error 0
          else .error 2
    | _ => .ok f

/-- The flag an argument names: the text after its one or two leading dashes,
up to the first `=` that is not its first character. -/
def flagName (s : String) : Option String :=
  match s.toList with
  | '-' :: c1 :: more =>
    some (String.mk (splitValue (if c1 == '-' then more else c1 :: more)).1)
  | _ => none

/-- Where `main` stands when it reaches (or fails to reach) the line that
registers the HTTP route. -/
inductive Startup where
  | exited (status : Nat)
  | serving (cfg : Config) (poolSize : Int) (pool : TabPool)
  | blocked
  | panicked
  deriving DecidableEq, Repr

/-- The configuration `main` stores in the package-level variables after
`flag.Parse()`. -/
def mainConfig (args : List String) : Except Nat Config :=
  match flagParse args flagDefaults with
  | .error status => .error status
  | .ok f => .ok { cdpServerURL := f.url, isUseCDPServer := f.useCDPServer }

/-- The function `main` up to the creation of the pool. -/
def mainStartup (args : List String) (numCPU : Int) (env : StartEnv) : Startup :=
  match mainConfig args with
  | .error status => .exited status
  | .ok cfg =>
    let poolSize := calculateOptimalPoolSize numCPU
    match NewTabPool cfg env poolSize with
    | .ret (.error _, _) => .exited 1
    | .ret (.ok pool, _) => .serving cfg poolSize pool
    | .blocked => .blocked
    | .panicked => .panicked

/-! ## Reading of the specification, for comparison with the code -/

/-- The four sub-steps of a render, in the order of the specification. -/
inductive SubStep where
  | navigate
  | resolveFrame
  | setContent
  | print
  deriving DecidableEq, Repr

/-- Position of a sub-step in the sequence. -/
def SubStep.idx : SubStep → Nat
  | .navigate => 0
  | .resolveFrame => 1
  | .setContent => 2
  | .print => 3

/-- The sub-step a driver call belongs to. -/
def Event.subStep : Event → Option SubStep
  | .navigate _ => some .navigate
  | .getFrameTree _ => some .resolveFrame
  | .setDocumentContent _ _ _ => some .setContent
  | .printToPDF _ => some .print
  | _ => none

/-- The first sub-step that fails, with its error, when the four sub-steps
are tried in the order navigate, resolve-frame, set-content, print on the
document `html`; `none` when all four succeed. -/
def firstFailure (env : RenderEnv) (b : BrowserCtx) (html : Bytes) : Option (SubStep × Err) :=
  match doNavigate env b with
  | some e => some (.navigate, e)
  | none =>
    match doGetFrameTree env b with
    | .error e => some (.resolveFrame, e)
    | .ok frame =>
      match doSetDocumentContent env b frame html with
      | some e => some (.setContent, e)
      | none =>
        match doPrintToPDF env b with
        | .error e => some (.print, e)
        | .ok _ => none

/-- The pair `([]byte, error)` a call of `createPDF` returns, when it returns. -/
def returnValue (o : Outcome (RenderResult × TabPool)) : Option (Option Bytes × Option Err) :=
  match o with
  | .ret (r, _) => some (r.buf, r.err)
  | _ => none

/-- The invariant of the pool: what sits in the channel plus what is checked
out is the capacity. -/
def Balanced (s : PoolState) : Prop := s.p.pool.length + s.out.length = s.p.cap

/-! ## Shared lemmas -/

lemma wrapInt_of_inRange (x : Int) (hlo : -(2 ^ 63) ≤ x) (hhi : x < 2 ^ 63) :
    wrapInt x = x := by
  unfold wrapInt
  have h : (x + 2 ^ 63) % 2 ^ 64 = x + 2 ^ 63 :=
    Int.emod_eq_of_lt (by omega) (by omega)
  omega

lemma send_of_room (p : TabPool) (ctx : Context) (h : p.pool.length < p.cap) :
    send p ctx = .ret { p with pool := p.pool ++ [ctx] } := by
  simp [send, h]

lemma send_of_full (p : TabPool) (ctx : Context) (h : p.cap ≤ p.pool.length) :
    send p ctx = .blocked := by
  simp [send, Nat.not_lt.mpr h]

lemma initTabs_fills (env : StartEnv) :
    ∀ (remaining i : Nat) (p : TabPool) (log : List String),
      p.pool.length + remaining ≤ p.cap →
      ∃ log1, initTabs env remaining i p log
        = .ret ({ p with pool := p.pool ++ List.range' i remaining }, log1) := by
  intro remaining
  induction remaining with
  | zero =>
    intro i p log _
    exact ⟨log, by simp [initTabs]⟩
  | succ n ih =>
    intro i p log h
    have hroom : p.pool.length < p.cap := by omega
    obtain ⟨log1, h1⟩ := ih (i + 1) { p with pool := p.pool ++ [i] } _ (by simp; omega)
    refine ⟨log1, ?_⟩
    rw [initTabs]
    simp only [send_of_room p i hroom]
    rw [h1]
    simp [List.range'_succ]

lemma NewTabPool_started (cfg : Config) (env : StartEnv) (size : Int)
    (hstart : env.startBrowser = none) (hsize : 0 ≤ size) :
    ∃ log, NewTabPool cfg env size
      = .ret (.ok { browserCtx := { alloc := chooseAllocator cfg, cancelled := false },
                    pool := List.range size.toNat, cap := size.toNat,
                    mutexLocked := false }, log) := by
  obtain ⟨log1, h1⟩ := initTabs_fills env size.toNat 0
    { browserCtx := { alloc := chooseAllocator cfg, cancelled := false },
      pool := [], cap := size.toNat, mutexLocked := false }
    (if cfg.isUseCDPServer then ["Using CDPServer: " ++ cfg.cdpServerURL] else [])
    (by simp)
  refine ⟨log1, ?_⟩
  unfold NewTabPool
  simp only [hstart, Int.not_lt.mpr hsize, if_false]
  rw [h1]
  simp [List.range_eq_range']

lemma stepOp_balanced (s s1 : PoolState) (op : Op) (hs : Balanced s)
    (hstep : stepOp s op = some s1) : Balanced s1 ∧ s1.p.cap = s.p.cap := by
  unfold Balanced at hs ⊢
  cases op with
  | getTab =>
    simp only [stepOp, GetTab, recv] at hstep
    cases hp : s.p.pool with
    | nil => simp [hp] at hstep
    | cons c rest =>
      simp only [hp, Option.some.injEq] at hstep
      subst hstep
      simp [hp] at hs ⊢
      omega
  | releaseTab ctx =>
    simp only [stepOp, ReleaseTab] at hstep
    by_cases hmem : ctx ∈ s.out
    · have hpos : 0 < s.out.length := List.length_pos_of_mem hmem
      have hroom : s.p.pool.length < s.p.cap := by omega
      simp only [hmem, if_true, send_of_room s.p ctx hroom, Option.some.injEq] at hstep
      subst hstep
      simp [List.length_erase_of_mem hmem]
      omega
    · simp [hmem] at hstep

lemma runOps_balanced : ∀ (ops : List Op) (s s1 : PoolState), Balanced s →
    runOps s ops = some s1 → Balanced s1 ∧ s1.p.cap = s.p.cap := by
  intro ops
  induction ops with
  | nil =>
    intro s s1 hs h
    simp only [runOps, Option.some.injEq] at h
    subst h
    exact ⟨hs, rfl⟩
  | cons op ops ih =>
    intro s s1 hs h
    simp only [runOps] at h
    cases hstep : stepOp s op with
    | none => simp [hstep] at h
    | some s2 =>
      simp only [hstep] at h
      obtain ⟨hb2, hc2⟩ := stepOp_balanced s s2 op hs hstep
      obtain ⟨hb1, hc1⟩ := ih s2 s1 hb2 h
      exact ⟨hb1, hc1.trans hc2⟩

lemma createPDFBody_trace_head (env : RenderEnv) (b : BrowserCtx) (c : Context) :
    (createPDFBody env b c).trace.head? = some (Event.getTab c) := by
  unfold createPDFBody
  simp only
  repeat' split
  all_goals simp [runFailed]

lemma createPDFBody_no_release (env : RenderEnv) (b : BrowserCtx) (c ctx : Context) :
    Event.releaseTab ctx ∉ (createPDFBody env b c).trace := by
  unfold createPDFBody
  simp only
  repeat' split
  all_goals simp [runFailed]

lemma createPDF_of_cons (env : RenderEnv) (p : TabPool) (c : Context) (rest : List Context)
    (hpool : p.pool = c :: rest) (hcap : p.pool.length ≤ p.cap) :
    createPDF env p
      = .ret ({ createPDFBody env p.browserCtx c with
                  trace := (createPDFBody env p.browserCtx c).trace ++ [Event.releaseTab c] },
              { p with pool := rest ++ [c] }) := by
  have hroom : rest.length < p.cap := by
    rw [hpool] at hcap
    simp at hcap
    omega
  simp [createPDF, GetTab, recv, hpool, ReleaseTab, send, hroom]

lemma createPDF_of_nil (env : RenderEnv) (p : TabPool) (hpool : p.pool = []) :
    createPDF env p = .blocked := by
  simp [createPDF, GetTab, recv, hpool]

lemma calculateOptimalPoolSize_nonneg (n : Int) : 0 ≤ calculateOptimalPoolSize n := by
  unfold calculateOptimalPoolSize
  simp only
  split_ifs <;> omega

lemma mainStartup_started (args : List String) (cfg : Config) (numCPU : Int) (env : StartEnv)
    (hcfg : mainConfig args = .ok cfg) (hstart : env.startBrowser = none) :
    mainStartup args numCPU env
      = .serving cfg (calculateOptimalPoolSize numCPU)
          { browserCtx := { alloc := chooseAllocator cfg, cancelled := false },
            pool := List.range (calculateOptimalPoolSize numCPU).toNat,
            cap := (calculateOptimalPoolSize numCPU).toNat, mutexLocked := false } := by
  obtain ⟨log, h⟩ := NewTabPool_started cfg env (calculateOptimalPoolSize numCPU) hstart
    (calculateOptimalPoolSize_nonneg numCPU)
  unfold mainStartup
  simp only [hcfg, h]

lemma flagParse_useCDPServer : ∀ (n : Nat) (args : List String) (f f1 : Flags),
    args.length ≤ n → flagParse args f = .ok f1 → f1.useCDPServer = true →
    f.useCDPServer = true ∨ ∃ s ∈ args, flagName s = some "use-cdp-server" := by
  intro n
  induction n with
  | zero =>
    intro args f f1 hlen h htrue
    have : args = [] := List.length_eq_zero.mp (Nat.le_zero.mp hlen)
    subst this
    simp only [flagParse, Except.ok.injEq] at h
    subst h
    exact Or.inl htrue
  | succ n ih =>
    intro args f f1 hlen h htrue
    cases args with
    | nil =>
      simp only [flagParse, Except.ok.injEq] at h
      subst h
      exact Or.inl htrue
    | cons s rest =>
      have hrest : rest.length ≤ n := by simpa using hlen
      have lift : ∀ g : Flags, g.useCDPServer = f.useCDPServer →
          (g.useCDPServer = true ∨ ∃ s1 ∈ rest, flagName s1 = some "use-cdp-server") →
          f.useCDPServer = true ∨ ∃ s1 ∈ s :: rest, flagName s1 = some "use-cdp-server" := by
        intro g hg hor
        rcases hor with h1 | ⟨s1, hs1, hn⟩
        · exact Or.inl (hg ▸ h1)
        · exact Or.inr ⟨s1, List.mem_cons_of_mem _ hs1, hn⟩
      have hname : ∀ (c1 : Char) (more : List Char), s.toList = '-' :: c1 :: more →
          flagName s
            = some (String.mk (splitValue (if c1 == '-' then more else c1 :: more)).1) := by
        intro c1 more hcs
        simp only [flagName, hcs]
      unfold flagParse at h
      simp only at h
      split at h
      · rename_i c1 more hcs
        have hnm := hname c1 more hcs
        by_cases hterm : (c1 == '-') = true ∧ more = []
        · rw [if_pos hterm] at h
          simp only [Except.ok.injEq] at h
          subst h
          exact Or.inl htrue
        · rw [if_neg hterm] at h
          generalize (if (c1 == '-') = true then more else c1 :: more) = name at h hnm
          split at h
          · simp at h
          · simp at h
          · simp at h
          · cases hsv : splitValue name with
            | mk nm value =>
              rw [hsv] at h hnm
              simp only at h hnm
              by_cases huse : String.mk nm = "use-cdp-server"
              · exact Or.inr ⟨s, List.mem_cons_self _ _, by rw [hnm, huse]⟩
              · rw [if_neg huse] at h
                by_cases hurl : String.mk nm = "url"
                · rw [if_pos hurl] at h
                  split at h
                  · have hrec := ih rest _ f1 hrest h htrue
                    exact lift _ rfl hrec
                  · split at h
                    · simp at h
                    · rename_i v rest2
                      have hrest2 : rest2.length ≤ n := by
                        simp at hrest
                        omega
                      rcases ih rest2 _ f1 hrest2 h htrue with h1 | ⟨s1, hs1, hn⟩
                      · exact Or.inl h1
                      · exact Or.inr
                          ⟨s1, List.mem_cons_of_mem _ (List.mem_cons_of_mem _ hs1), hn⟩
                · rw [if_neg hurl] at h
                  split_ifs at h
      · simp only [Except.ok.injEq] at h
        subst h
        exact Or.inl htrue

/-! ## Pool capacity -/

/-- C1: in every state reached from the pool built by `NewTabPool C`, `C > 0`,
through GetTab steps and releases of checked-out contexts, the contexts in the
channel and the contexts checked out add up to `C`, so that at most `C` are
checked out at once. -/
theorem pool_capacity_invariant (cfg : Config) (env : StartEnv) (C : Int) (p : TabPool)
    (log : List String) (ops : List Op) (s : PoolState) (hC : 0 < C)
    (hnew : NewTabPool cfg env C = .ret (.ok p, log))
    (hrun : runOps { p := p, out := [] } ops = some s) :
    ((s.p.pool.length : Int) + (s.out.length : Int) = C) ∧ (s.out.length : Int) ≤ C := by
  have hstart : env.startBrowser = none := by
    cases h : env.startBrowser with
    | none => rfl
    | some e => simp [NewTabPool, h] at hnew
  obtain ⟨log1, h1⟩ := NewTabPool_started cfg env C hstart (le_of_lt hC)
  rw [h1] at hnew
  simp only [Outcome.ret.injEq, Prod.mk.injEq, Except.ok.injEq] at hnew
  obtain ⟨hp, -⟩ := hnew
  subst hp
  obtain ⟨hb, hc⟩ := runOps_balanced ops _ s (by simp [Balanced]) hrun
  unfold Balanced at hb
  simp only at hc
  have hCn : ((C.toNat : Nat) : Int) = C := Int.toNat_of_nonneg (le_of_lt hC)
  constructor <;> omega

/-- Witness of C1 on a pool of two tabs: take both, give the second back. -/
theorem pool_capacity_invariant_witness :
    NewTabPool initialConfig { startBrowser := none, initTab := fun _ => none } 2
      = .ret (.ok { browserCtx := { alloc := .remote "ws://127.0.0.1:9222", cancelled := false },
                    pool := [0, 1], cap := 2, mutexLocked := false },
              ["Using CDPServer: ws://127.0.0.1:9222"]) ∧
    runOps
        { p := { browserCtx := { alloc := .remote "ws://127.0.0.1:9222", cancelled := false },
                 pool := [0, 1], cap := 2, mutexLocked := false },
          out := [] }
        [.getTab, .getTab, .releaseTab 1]
      = some { p := { browserCtx := { alloc := .remote "ws://127.0.0.1:9222",
                                      cancelled := false },
                      pool := [1], cap := 2, mutexLocked := false },
               out := [0] } ∧
    ((([1] : List Context).length : Int) + (([0] : List Context).length : Int) = 2) ∧
    (([0] : List Context).length : Int) ≤ 2 :=
  ⟨rfl, rfl,
   pool_capacity_invariant initialConfig { startBrowser := none, initTab := fun _ => none } 2
    { browserCtx := { alloc := .remote "ws://127.0.0.1:9222", cancelled := false },
      pool := [0, 1], cap := 2, mutexLocked := false }
    ["Using CDPServer: ws://127.0.0.1:9222"]
    [.getTab, .getTab, .releaseTab 1]
    { p := { browserCtx := { alloc := .remote "ws://127.0.0.1:9222", cancelled := false },
             pool := [1], cap := 2, mutexLocked := false },
      out := [0] }
    (by decide) rfl rfl⟩

/-! ## Pool sizing -/

/-- C3: `calculateOptimalPoolSize` always answers within `[4, 32]`, and for
every CPU count `n` whose product `n * 4` fits Go's `int` it answers
`clamp(n * 4, 4, 32)`: 4 when `n * 4 < 4`, 32 when `n * 4 > 32`, and `n * 4`
otherwise. -/
theorem calculateOptimalPoolSize_clamp (n : Int) :
    (4 ≤ calculateOptimalPoolSize n ∧ calculateOptimalPoolSize n ≤ 32) ∧
    (-(2 ^ 61) ≤ n → n < 2 ^ 61 →
      calculateOptimalPoolSize n = clamp (n * 4) 4 32 ∧
      (n * 4 < 4 → calculateOptimalPoolSize n = 4) ∧
      (n * 4 > 32 → calculateOptimalPoolSize n = 32) ∧
      (4 ≤ n * 4 → n * 4 ≤ 32 → calculateOptimalPoolSize n = n * 4)) := by
  constructor
  · unfold calculateOptimalPoolSize
    simp only
    split_ifs <;> omega
  · intro hlo hhi
    have hw : wrapInt (n * 4) = n * 4 := wrapInt_of_inRange (n * 4) (by omega) (by omega)
    unfold calculateOptimalPoolSize clamp
    simp only [hw]
    refine ⟨trivial, ?_, ?_, ?_⟩
    · intro h
      simp [h]
    · intro h
      have h1 : ¬ n * 4 < 4 := by omega
      simp [h1, h]
    · intro h1 h2
      have h3 : ¬ n * 4 < 4 := by omega
      have h4 : ¬ n * 4 > 32 := by omega
      simp [h3, h4]

/-- Witness of C3 on a host with three CPUs. -/
theorem calculateOptimalPoolSize_clamp_witness :
    calculateOptimalPoolSize 3 = clamp (3 * 4) 4 32 ∧ calculateOptimalPoolSize 3 = 3 * 4 :=
  ⟨((calculateOptimalPoolSize_clamp 3).2 (by decide) (by decide)).1,
   ((calculateOptimalPoolSize_clamp 3).2 (by decide) (by decide)).2.2.2
     (by decide) (by decide)⟩

/-! ## Pool construction -/

/-- C4: for a positive size, `NewTabPool` returns an error exactly when the
start of the browser session fails; when the session starts it returns a pool
whose channel has capacity `size` and holds `size` contexts, whatever the
outcomes of the per-tab initialisations. -/
theorem NewTabPool_error_iff_start_fails (cfg : Config) (env : StartEnv) (size : Int)
    (hsize : 0 < size) :
    ((∃ msg log, NewTabPool cfg env size = .ret (.error msg, log)) ↔
      env.startBrowser ≠ none) ∧
    (env.startBrowser = none →
      ∃ p log, NewTabPool cfg env size = .ret (.ok p, log) ∧
        (p.cap : Int) = size ∧ (p.pool.length : Int) = size ∧
        p.pool = List.range size.toNat) := by
  have hnat : ((size.toNat : Nat) : Int) = size := Int.toNat_of_nonneg (le_of_lt hsize)
  constructor
  · constructor
    · rintro ⟨msg, log, h⟩ hstart
      obtain ⟨log1, h1⟩ := NewTabPool_started cfg env size hstart (le_of_lt hsize)
      rw [h1] at h
      simp at h
    · intro hne
      cases hs : env.startBrowser with
      | none => exact absurd hs hne
      | some e =>
        exact ⟨"failed to start browser: " ++ e.text,
          (if cfg.isUseCDPServer then ["Using CDPServer: " ++ cfg.cdpServerURL] else []),
          by simp [NewTabPool, hs]⟩
  · intro hstart
    obtain ⟨log1, h1⟩ := NewTabPool_started cfg env size hstart (le_of_lt hsize)
    exact ⟨_, log1, h1, hnat, by simpa using hnat, rfl⟩

/-- Witness of C4: three tabs, the middle one failing to initialise. -/
theorem NewTabPool_error_iff_start_fails_witness :
    ∃ p log, NewTabPool initialConfig
        { startBrowser := none,
          initTab := fun i => if i = 1 then some (.other "timeout") else none } 3
        = .ret (.ok p, log) ∧
      (p.cap : Int) = 3 ∧ (p.pool.length : Int) = 3 ∧ p.pool = List.range (3 : Int).toNat :=
  (NewTabPool_error_iff_start_fails initialConfig
    { startBrowser := none,
      initTab := fun i => if i = 1 then some (.other "timeout") else none } 3
    (by decide)).2 rfl

/-! ## Release on every way out -/

/-- C2: whenever `GetTab` hands `createPDF` a context, then for every outcome
of the file read and of the four protocol commands (failure, expired deadline
or success) `createPDF` returns, `ReleaseTab` is called exactly once, with the
context `GetTab` returned, and the channel holds as many contexts after the
call as before it. -/
theorem createPDF_releases_exactly_once (env : RenderEnv) (p : TabPool) (c : Context)
    (rest : List Context) (hpool : p.pool = c :: rest) (hcap : p.pool.length ≤ p.cap) :
    ∃ r p1, createPDF env p = .ret (r, p1) ∧
      r.trace.head? = some (Event.getTab c) ∧
      r.trace.count (Event.releaseTab c) = 1 ∧
      (∀ ctx, Event.releaseTab ctx ∈ r.trace → ctx = c) ∧
      p1.pool.length = p.pool.length ∧ p1.pool = rest ++ [c] ∧ p1.cap = p.cap := by
  refine ⟨_, _, createPDF_of_cons env p c rest hpool hcap, ?_, ?_, ?_, ?_, rfl, rfl⟩
  · have hh := createPDFBody_trace_head env p.browserCtx c
    cases ht : (createPDFBody env p.browserCtx c).trace with
    | nil => simp [ht] at hh
    | cons e es =>
      rw [ht] at hh
      simpa using hh
  · have hn := createPDFBody_no_release env p.browserCtx c c
    simp [List.count_append, List.count_eq_zero_of_not_mem hn]
  · intro ctx hmem
    have hn := createPDFBody_no_release env p.browserCtx c ctx
    simp only [List.mem_append, List.mem_singleton, Event.releaseTab.injEq] at hmem
    rcases hmem with h | h
    · exact absurd h hn
    · exact h
  · simp [hpool]

/-- Witness of C2: a render whose print step runs into the deadline, on a
pool with two free tabs. -/
theorem createPDF_releases_exactly_once_witness :
    ∃ r p1, createPDF
        { readFile := .ok [60, 112, 62], navigate := none, getFrameTree := .ok "F",
          setDocumentContent := fun _ _ => none, printToPDF := .error .deadlineExceeded }
        { browserCtx := { alloc := .exec execFlags, cancelled := false },
          pool := [0, 1], cap := 2, mutexLocked := false } = .ret (r, p1) ∧
      r.trace.head? = some (Event.getTab 0) ∧
      r.trace.count (Event.releaseTab 0) = 1 ∧
      (∀ ctx, Event.releaseTab ctx ∈ r.trace → ctx = 0) ∧
      p1.pool.length = 2 ∧ p1.pool = [1] ++ [0] ∧ p1.cap = 2 :=
  createPDF_releases_exactly_once _ _ 0 [1] rfl (by decide)

/-! ## Releases that break the contract -/

/-- C5, as stated, fails: with tab 1 checked out of a pool of two, releasing
the foreign context 7 puts 7 into the channel, and releasing tab 0, which
sits in the channel already, puts it there a second time. -/
theorem ReleaseTab_accepts_foreign_and_double_release :
    (7 ∉ [1] ∧
      ReleaseTab { browserCtx := { alloc := .exec execFlags, cancelled := false },
                   pool := [0], cap := 2, mutexLocked := false } 7
        = .ret { browserCtx := { alloc := .exec execFlags, cancelled := false },
                 pool := [0, 7], cap := 2, mutexLocked := false }) ∧
    (0 ∉ [1] ∧
      ReleaseTab { browserCtx := { alloc := .exec execFlags, cancelled := false },
                   pool := [0], cap := 2, mutexLocked := false } 0
        = .ret { browserCtx := { alloc := .exec execFlags, cancelled := false },
                 pool := [0, 0], cap := 2, mutexLocked := false }) := by
  refine ⟨⟨by decide, rfl⟩, ⟨by decide, rfl⟩⟩

/-- C5, amended: `ReleaseTab` does not look at its argument.  While the
channel has room, releasing any context appends it to the channel; while the
channel is full the call blocks. -/
theorem ReleaseTab_unguarded (p : TabPool) (ctx : Context) :
    (p.pool.length < p.cap → ReleaseTab p ctx = .ret { p with pool := p.pool ++ [ctx] }) ∧
    (p.cap ≤ p.pool.length → ReleaseTab p ctx = .blocked) :=
  ⟨send_of_room p ctx, send_of_full p ctx⟩

/-- Witness of the amended C5: room for one more, and a full channel. -/
theorem ReleaseTab_unguarded_witness :
    ReleaseTab { browserCtx := { alloc := .exec execFlags, cancelled := false },
                 pool := [0], cap := 2, mutexLocked := false } 5
      = .ret { browserCtx := { alloc := .exec execFlags, cancelled := false },
               pool := [0] ++ [5], cap := 2, mutexLocked := false } ∧
    ReleaseTab { browserCtx := { alloc := .exec execFlags, cancelled := false },
                 pool := [0, 1], cap := 2, mutexLocked := false } 5 = .blocked :=
  ⟨(ReleaseTab_unguarded _ 5).1 (by decide), (ReleaseTab_unguarded _ 5).2 (by decide)⟩

/-! ## Shutdown -/

/-- C6: on a pool whose mutex is free, `Close` returns, and a second `Close`
returns too and changes nothing: after either the browser context is
cancelled and the channel holds what it held. -/
theorem Close_idempotent (p : TabPool) (hfree : p.mutexLocked = false) :
    ∃ p1, Close p = .ret p1 ∧ Close p1 = .ret p1 ∧
      p1.browserCtx.cancelled = true ∧ p1.pool = p.pool ∧ p1.cap = p.cap ∧
      p1.mutexLocked = false := by
  refine ⟨{ p with browserCtx := { p.browserCtx with cancelled := true } }, ?_, ?_,
    rfl, rfl, rfl, hfree⟩
  · cases p with
    | mk b pool cap m =>
      simp only at hfree
      subst hfree
      simp [Close]
  · cases p with
    | mk b pool cap m =>
      simp only at hfree
      subst hfree
      simp [Close]

/-- Witness of C6 on a pool with one tab out and one tab in. -/
theorem Close_idempotent_witness :
    ∃ p1, Close { browserCtx := { alloc := .exec execFlags, cancelled := false },
                  pool := [1], cap := 2, mutexLocked := false } = .ret p1 ∧
      Close p1 = .ret p1 ∧ p1.browserCtx.cancelled = true ∧ p1.pool = [1] ∧ p1.cap = 2 ∧
      p1.mutexLocked = false :=
  Close_idempotent _ rfl

/-- C7, as stated, fails: after `Close` on a pool whose only tab is checked
out, `createPDF` blocks in `GetTab` instead of returning an error. -/
theorem createPDF_after_Close_blocks_on_empty_channel :
    Close { browserCtx := { alloc := .exec execFlags, cancelled := false },
            pool := [], cap := 1, mutexLocked := false }
      = .ret { browserCtx := { alloc := .exec execFlags, cancelled := true },
               pool := [], cap := 1, mutexLocked := false } ∧
    createPDF
      { readFile := .ok [60, 112, 62], navigate := none, getFrameTree := .ok "F",
        setDocumentContent := fun _ _ => none, printToPDF := .ok [37, 80, 68, 70] }
      { browserCtx := { alloc := .exec execFlags, cancelled := true },
        pool := [], cap := 1, mutexLocked := false } = .blocked :=
  ⟨rfl, rfl⟩

/-- C7, amended: a `createPDF` call started after `Close` on a pool whose
channel holds at least one context returns, with no PDF bytes and with an
error: the error of the file read when that fails, `context canceled`
otherwise.  On a pool whose channel is empty it blocks in `GetTab`. -/
theorem createPDF_after_Close (env : RenderEnv) (p p1 : TabPool)
    (hclose : Close p = .ret p1) (hcap : p.pool.length ≤ p.cap) :
    (p.pool ≠ [] →
      ∃ r p2, createPDF env p1 = .ret (r, p2) ∧ r.buf = none ∧
        ((∃ e, env.readFile = .error e ∧ r.err = some e) ∨
         ((∃ html, env.readFile = .ok html) ∧ r.err = some .canceled))) ∧
    (p.pool = [] → createPDF env p1 = .blocked) := by
  have hp1 : p1 = { p with browserCtx := { p.browserCtx with cancelled := true },
                           mutexLocked := false } := by
    unfold Close at hclose
    split_ifs at hclose
    simp only [Outcome.ret.injEq] at hclose
    exact hclose.symm
  subst hp1
  constructor
  · intro hne
    obtain ⟨c, rest, hpool⟩ := List.exists_cons_of_ne_nil hne
    refine ⟨_, _, createPDF_of_cons env _ c rest hpool hcap, ?_, ?_⟩
    · cases hr : env.readFile with
      | error e => simp [createPDFBody, hr]
      | ok html => simp [createPDFBody, hr, doNavigate, runFailed]
    · cases hr : env.readFile with
      | error e => simp [createPDFBody, hr]
      | ok html => simp [createPDFBody, hr, doNavigate, runFailed]
  · intro hnil
    exact createPDF_of_nil env _ hnil

/-- Witness of the amended C7: one tab in the channel, every command set to
succeed, and still no PDF after `Close`. -/
theorem createPDF_after_Close_witness :
    ∃ r p2, createPDF
        { readFile := .ok [60, 112, 62], navigate := none, getFrameTree := .ok "F",
          setDocumentContent := fun _ _ => none, printToPDF := .ok [37, 80, 68, 70] }
        { browserCtx := { alloc := .exec execFlags, cancelled := true },
          pool := [0], cap := 1, mutexLocked := false } = .ret (r, p2) ∧
      r.buf = none ∧
      ((∃ e, (Except.ok [60, 112, 62] : Except Err Bytes) = .error e ∧ r.err = some e) ∨
       ((∃ html, (Except.ok [60, 112, 62] : Except Err Bytes) = .ok html) ∧
        r.err = some .canceled)) :=
  (createPDF_after_Close
    { readFile := .ok [60, 112, 62], navigate := none, getFrameTree := .ok "F",
      setDocumentContent := fun _ _ => none, printToPDF := .ok [37, 80, 68, 70] }
    { browserCtx := { alloc := .exec execFlags, cancelled := false },
      pool := [0], cap := 1, mutexLocked := false }
    { browserCtx := { alloc := .exec execFlags, cancelled := true },
      pool := [0], cap := 1, mutexLocked := false }
    rfl (by decide)).1 (by decide)

/-! ## Result of a render -/

/-- C8, as stated, fails: a deadline that expires in the navigate step and one
that expires in the print step make `createPDF` return the same pair, so the
returned error does not tell which sub-step failed. -/
theorem createPDF_error_does_not_name_sub_step :
    firstFailure
        { readFile := .ok [60, 112, 62], navigate := some .deadlineExceeded,
          getFrameTree := .ok "F", setDocumentContent := fun _ _ => none,
          printToPDF := .ok [37, 80, 68, 70] }
        { alloc := .exec execFlags, cancelled := false } [60, 112, 62]
      = some (.navigate, .deadlineExceeded) ∧
    firstFailure
        { readFile := .ok [60, 112, 62], navigate := none,
          getFrameTree := .ok "F", setDocumentContent := fun _ _ => none,
          printToPDF := .error .deadlineExceeded }
        { alloc := .exec execFlags, cancelled := false } [60, 112, 62]
      = some (.print, .deadlineExceeded) ∧
    returnValue (createPDF
        { readFile := .ok [60, 112, 62], navigate := some .deadlineExceeded,
          getFrameTree := .ok "F", setDocumentContent := fun _ _ => none,
          printToPDF := .ok [37, 80, 68, 70] }
        { browserCtx := { alloc := .exec execFlags, cancelled := false },
          pool := [0], cap := 1, mutexLocked := false })
      = some (none, some .deadlineExceeded) ∧
    returnValue (createPDF
        { readFile := .ok [60, 112, 62], navigate := none,
          getFrameTree := .ok "F", setDocumentContent := fun _ _ => none,
          printToPDF := .error .deadlineExceeded }
        { browserCtx := { alloc := .exec execFlags, cancelled := false },
          pool := [0], cap := 1, mutexLocked := false })
      = some (none, some .deadlineExceeded) :=
  ⟨rfl, rfl, rfl, rfl⟩

/-- C8, amended: once `GetTab` has handed over a context and `index.html` has
been read, `createPDF` returns the bytes of print-to-PDF with a nil error when
every sub-step succeeds; when a sub-step fails it runs no later sub-step and
returns nil bytes with the error of the first failing sub-step, unchanged. -/
theorem createPDF_first_failure (env : RenderEnv) (p : TabPool) (c : Context)
    (rest : List Context) (html : Bytes) (hpool : p.pool = c :: rest)
    (hcap : p.pool.length ≤ p.cap) (hread : env.readFile = .ok html) :
    ∃ r p1, createPDF env p = .ret (r, p1) ∧
      (firstFailure env p.browserCtx html = none →
        ∃ bytes, doPrintToPDF env p.browserCtx = .ok bytes ∧
          r.buf = some bytes ∧ r.err = none) ∧
      (∀ s e, firstFailure env p.browserCtx html = some (s, e) →
        r.buf = none ∧ r.err = some e ∧
        ∀ ev ∈ r.trace, ∀ s1, ev.subStep = some s1 → s1.idx ≤ s.idx) := by
  refine ⟨_, _, createPDF_of_cons env p c rest hpool hcap, ?_, ?_⟩
  · intro hff
    cases h1 : doNavigate env p.browserCtx with
    | some e => simp [firstFailure, h1] at hff
    | none =>
      cases h2 : doGetFrameTree env p.browserCtx with
      | error e => simp [firstFailure, h1, h2] at hff
      | ok frame =>
        cases h3 : doSetDocumentContent env p.browserCtx frame html with
        | some e => simp [firstFailure, h1, h2, h3] at hff
        | none =>
          cases h4 : doPrintToPDF env p.browserCtx with
          | error e => simp [firstFailure, h1, h2, h3, h4] at hff
          | ok bytes =>
            exact ⟨bytes, rfl, by simp [createPDFBody, hread, h1, h2, h3, h4]⟩
  · intro s e hff
    cases h1 : doNavigate env p.browserCtx with
    | some e1 =>
      simp only [firstFailure, h1, Option.some.injEq, Prod.mk.injEq] at hff
      obtain ⟨hs, he⟩ := hff
      subst hs he
      simp [createPDFBody, hread, h1, runFailed, Event.subStep]
    | none =>
      cases h2 : doGetFrameTree env p.browserCtx with
      | error e1 =>
        simp only [firstFailure, h1, h2, Option.some.injEq, Prod.mk.injEq] at hff
        obtain ⟨hs, he⟩ := hff
        subst hs he
        simp [createPDFBody, hread, h1, h2, runFailed, Event.subStep, SubStep.idx]
      | ok frame =>
        cases h3 : doSetDocumentContent env p.browserCtx frame html with
        | some e1 =>
          simp only [firstFailure, h1, h2, h3, Option.some.injEq, Prod.mk.injEq] at hff
          obtain ⟨hs, he⟩ := hff
          subst hs he
          simp [createPDFBody, hread, h1, h2, h3, runFailed, Event.subStep, SubStep.idx]
        | none =>
          cases h4 : doPrintToPDF env p.browserCtx with
          | error e1 =>
            simp only [firstFailure, h1, h2, h3, h4, Option.some.injEq, Prod.mk.injEq] at hff
            obtain ⟨hs, he⟩ := hff
            subst hs he
            simp [createPDFBody, hread, h1, h2, h3, h4, runFailed, Event.subStep, SubStep.idx]
          | ok bytes => simp [firstFailure, h1, h2, h3, h4] at hff

/-- Witness of the amended C8: the frame tree cannot be fetched, so neither
set-content nor print runs. -/
theorem createPDF_first_failure_witness :
    ∃ r p1, createPDF
        { readFile := .ok [60, 112, 62], navigate := none,
          getFrameTree := .error (.other "no frame"),
          setDocumentContent := fun _ _ => none, printToPDF := .ok [37, 80, 68, 70] }
        { browserCtx := { alloc := .exec execFlags, cancelled := false },
          pool := [0], cap := 1, mutexLocked := false } = .ret (r, p1) ∧
      r.buf = none ∧ r.err = some (.other "no frame") ∧
      ∀ ev ∈ r.trace, ∀ s1, ev.subStep = some s1 → s1.idx ≤ SubStep.resolveFrame.idx := by
  obtain ⟨r, p1, h, -, hfail⟩ := createPDF_first_failure
    { readFile := .ok [60, 112, 62], navigate := none,
      getFrameTree := .error (.other "no frame"),
      setDocumentContent := fun _ _ => none, printToPDF := .ok [37, 80, 68, 70] }
    { browserCtx := { alloc := .exec execFlags, cancelled := false },
      pool := [0], cap := 1, mutexLocked := false } 0 [] [60, 112, 62] rfl (by decide) rfl
  exact ⟨r, p1, h, hfail .resolveFrame (.other "no frame") rfl⟩

/-! ## HTTP response -/

/-- C9: whatever `createPDF` returns, the handler answers on a fresh writer as
follows.  On `(buf, nil)`: status 200, the three PDF headers with
`Content-Length` the decimal length of `buf`, and body `buf`.  On an error:
the response `http.Error` writes for the fixed message and status 500, the
same for every error, with none of the PDF headers. -/
theorem generatePDFHandler_response (env : RenderEnv) (p p1 : TabPool) (r : RenderResult)
    (hcall : createPDF env p = .ret (r, p1)) :
    ∃ w log, generatePDFHandler env p ResponseWriter.fresh = .ret (w, p1, log) ∧
      (r.err = none →
        w.status = some 200 ∧
        headerGet w.header "Content-Type" = some "application/pdf" ∧
        headerGet w.header "Content-Disposition"
          = some "attachment; filename=generated.pdf" ∧
        headerGet w.header "Content-Length" = some (toString (r.buf.getD []).length) ∧
        w.body = r.buf.getD []) ∧
      (∀ e, r.err = some e →
        w = httpError ResponseWriter.fresh "Failed to generate PDF" 500 ∧
        w.status = some 500 ∧
        w.body = bytesOf "Failed to generate PDF\n" ∧
        headerGet w.header "Content-Type" = some "text/plain; charset=utf-8" ∧
        headerGet w.header "Content-Disposition" = none ∧
        headerGet w.header "Content-Length" = none) := by
  refine ⟨(respond ResponseWriter.fresh r.buf r.err).1,
    r.log ++ (respond ResponseWriter.fresh r.buf r.err).2, ?_, ?_, ?_⟩
  · simp [generatePDFHandler, hcall]
  · intro herr
    rw [herr]
    simp [respond, Write, WriteHeader, ResponseWriter.fresh, headerGet, headerSet, headerDel]
  · intro e herr
    rw [herr]
    refine ⟨rfl, ?_, ?_, ?_, ?_, ?_⟩ <;>
    simp [respond, httpError, Write, WriteHeader, ResponseWriter.fresh, headerGet, headerSet,
      headerDel]

/-- Witness of C9: a successful render of four bytes. -/
theorem generatePDFHandler_response_witness :
    ∃ w log, generatePDFHandler
        { readFile := .ok [60, 112, 62], navigate := none, getFrameTree := .ok "F",
          setDocumentContent := fun _ _ => none, printToPDF := .ok [37, 80, 68, 70] }
        { browserCtx := { alloc := .exec execFlags, cancelled := false },
          pool := [0], cap := 1, mutexLocked := false }
        ResponseWriter.fresh
        = .ret (w, { browserCtx := { alloc := .exec execFlags, cancelled := false },
                     pool := [0], cap := 1, mutexLocked := false }, log) ∧
      w.status = some 200 ∧
      headerGet w.header "Content-Type" = some "application/pdf" ∧
      headerGet w.header "Content-Disposition" = some "attachment; filename=generated.pdf" ∧
      headerGet w.header "Content-Length" = some (toString 4) ∧
      w.body = [37, 80, 68, 70] := by
  obtain ⟨w, log, h, hok, -⟩ := generatePDFHandler_response
    { readFile := .ok [60, 112, 62], navigate := none, getFrameTree := .ok "F",
      setDocumentContent := fun _ _ => none, printToPDF := .ok [37, 80, 68, 70] }
    { browserCtx := { alloc := .exec execFlags, cancelled := false },
      pool := [0], cap := 1, mutexLocked := false }
    { browserCtx := { alloc := .exec execFlags, cancelled := false },
      pool := [0], cap := 1, mutexLocked := false }
    { buf := some [37, 80, 68, 70], err := none,
      trace := [Event.getTab 0, Event.readFile, Event.navigate 0, Event.getFrameTree 0,
        Event.setDocumentContent 0 "F" [60, 112, 62], Event.sleep, Event.printToPDF 0,
        Event.releaseTab 0],
      log := ["Getting tab from pool", "Read HTML file", "Using tab from pool",
        "Set page content", "Waiting for content to load...", "Print to PDF",
        "PDF generated successfully", "Return buffer"] }
    rfl
  exact ⟨w, log, h, hok rfl⟩

/-! ## Default configuration -/

/-- C10, as stated, fails: started without flags, `main` stores the flag
default `false` in `isUseCDPServer`, and `NewTabPool` keeps the exec
allocator. -/
theorem main_without_flags_turns_cdp_server_off :
    mainConfig [] = .ok { isUseCDPServer := false, cdpServerURL := "ws://127.0.0.1:9222" } ∧
    chooseAllocator { isUseCDPServer := false, cdpServerURL := "ws://127.0.0.1:9222" }
      = .exec execFlags ∧
    mainStartup [] 1 { startBrowser := none, initTab := fun _ => none }
      = .serving { isUseCDPServer := false, cdpServerURL := "ws://127.0.0.1:9222" } 4
          { browserCtx := { alloc := .exec execFlags, cancelled := false },
            pool := [0, 1, 2, 3], cap := 4, mutexLocked := false } :=
  ⟨rfl, rfl, rfl⟩

/-- C10, amended: started without flags, `main` leaves `isUseCDPServer` false
and `cdpServerURL` at `ws://127.0.0.1:9222`, and the pool it builds sits on
the locally launched exec allocator.  For every argument list, the pool sits
on a remote allocator only when some argument names the flag
`use-cdp-server`; started with `-use-cdp-server` alone, it sits on the remote
allocator for that URL. -/
theorem main_default_allocator (numCPU : Int) (env : StartEnv)
    (hstart : env.startBrowser = none) :
    (∃ pool, mainStartup [] numCPU env
        = .serving { isUseCDPServer := false, cdpServerURL := "ws://127.0.0.1:9222" }
            (calculateOptimalPoolSize numCPU) pool ∧
      pool.browserCtx.alloc = .exec execFlags) ∧
    (∀ (args : List String) (cfg : Config) (poolSize : Int) (pool : TabPool) (url : String),
      mainStartup args numCPU env = .serving cfg poolSize pool →
      pool.browserCtx.alloc = .remote url →
      ∃ s ∈ args, flagName s = some "use-cdp-server") ∧
    (∃ pool, mainStartup ["-use-cdp-server"] numCPU env
        = .serving { isUseCDPServer := true, cdpServerURL := "ws://127.0.0.1:9222" }
            (calculateOptimalPoolSize numCPU) pool ∧
      pool.browserCtx.alloc = .remote "ws://127.0.0.1:9222") := by
  refine ⟨⟨_, mainStartup_started [] _ numCPU env rfl hstart, rfl⟩, ?_,
    ⟨_, mainStartup_started ["-use-cdp-server"] _ numCPU env rfl hstart, rfl⟩⟩
  intro args cfg poolSize pool url hserv halloc
  cases hfp : flagParse args flagDefaults with
  | error status => simp [mainStartup, mainConfig, hfp] at hserv
  | ok f =>
    have hcfg : mainConfig args = .ok { cdpServerURL := f.url, isUseCDPServer := f.useCDPServer } := by
      simp [mainConfig, hfp]
    rw [mainStartup_started args _ numCPU env hcfg hstart] at hserv
    simp only [Startup.serving.injEq] at hserv
    obtain ⟨-, -, hp⟩ := hserv
    subst hp
    have huse : f.useCDPServer = true := by
      cases hb : f.useCDPServer with
      | true => rfl
      | false => simp [chooseAllocator, hb] at halloc
    rcases flagParse_useCDPServer args.length args flagDefaults f le_rfl hfp huse with h | h
    · simp [flagDefaults] at h
    · exact h

/-- Witness of the amended C10 on a host with two CPUs. -/
theorem main_default_allocator_witness :
    ∃ pool, mainStartup [] 2 { startBrowser := none, initTab := fun _ => none }
        = .serving { isUseCDPServer := false, cdpServerURL := "ws://127.0.0.1:9222" }
            (calculateOptimalPoolSize 2) pool ∧
      pool.browserCtx.alloc = .exec execFlags :=
  (main_default_allocator 2 { startBrowser := none, initTab := fun _ => none } rfl).1

end HeadlessPrint
